import Mathlib

/-!
Shallow embedding of the volume-anomaly monitoring engine of this repository
(the `StockVolumeMonitor` class, duplicated across `src/alert.py` and
`src/haha.py`), together with theorems settling the behavioural claims about
the session gate, the volume-history store, the anomaly detector and the
notification dispatcher.

Modelling choices:
- timestamps are integers (seconds, in the configured time zone); the wall
  clock handed to the session gate is the minute-of-day of a timezone-aware
  `datetime` (its `hour` field is minute-of-day divided by 60);
- Python float volumes and thresholds are modelled as rationals;
- the per-symbol view of `self.volume_history` is `Option (List Entry)`:
  `none` models `symbol not in self.volume_history`;
- the Telegram side effects of the dispatcher (`bot.send_message`,
  `bot.pin_chat_message`) are oracles returning `Except`; a run of the
  dispatcher is summarised by the trace of attempts, deliveries, pin attempts
  and logged errors, with `ret` the value the Python function returns to its
  caller (`None`, i.e. `Unit`).
-/

/-- Configuration fields set in `StockVolumeMonitor.__init__`
(identical in `src/alert.py` and `src/haha.py`). -/
structure Config where
  trading_start : Nat
  trading_end : Nat
  volume_threshold : Rat
  avg_window_minutes : Int

/-- The defaults from `__init__`: trading 09:00–16:00 WIB, threshold 2.0,
averaging window 120 minutes. -/
def defaultConfig : Config := ⟨9, 16, 2, 120⟩

/-- One `(timestamp, volume)` pair of `self.volume_history[symbol]`. -/
abbrev Entry := Int × Rat

/-- `is_trading_hours` (src/alert.py:548-551, src/haha.py:442-445):
`self.trading_start <= now.hour < self.trading_end`, where `now.hour` is the
wall-clock hour of the minute-of-day `nowMinutes`. -/
def is_trading_hours (cfg : Config) (nowMinutes : Nat) : Bool :=
  decide (cfg.trading_start ≤ nowMinutes / 60) && decide (nowMinutes / 60 < cfg.trading_end)

/-- The comprehension `[vol for timestamp, vol in history if timestamp >= cutoff_time]`
of `calculate_average_volume`, with `cutoff_time = now - timedelta(minutes=self.avg_window_minutes)`. -/
def recent_volumes (cfg : Config) (now : Int) (history : List Entry) : List Rat :=
  (history.filter (fun e => decide (now - cfg.avg_window_minutes * 60 ≤ e.1))).map (fun e => e.2)

/-- `calculate_average_volume` (src/alert.py:580-599, src/haha.py:474-493,
identical in both files): 0 when the symbol is absent, when the history has
fewer than 2 entries, or when no entry lies in the averaging window;
otherwise `np.mean` of the in-window volumes. -/
def calculate_average_volume (cfg : Config) (now : Int) (hist : Option (List Entry)) : Rat :=
  match hist with
  | none => 0
  | some history =>
    if history.length < 2 then 0
    else
      let recent := recent_volumes cfg now history
      if recent.isEmpty then 0
      else (recent.foldl (· + ·) 0) / recent.length

namespace Alert

/-- `should_alert` from src/alert.py:601-613: the 90000 absolute-volume floor
first, then the zero-baseline guard, then the ratio test. -/
def should_alert (cfg : Config) (now : Int) (hist : Option (List Entry))
    (current_volume : Rat) : Bool :=
  if current_volume < 90000 then false
  else
    let avg_volume := calculate_average_volume cfg now hist
    if avg_volume = 0 then false
    else decide (cfg.volume_threshold ≤ current_volume / avg_volume)

end Alert

namespace Haha

/-- `should_alert` from src/haha.py:495-503: the zero-baseline guard, then the
ratio test. This version has no absolute-volume floor check. -/
def should_alert (cfg : Config) (now : Int) (hist : Option (List Entry))
    (current_volume : Rat) : Bool :=
  let avg_volume := calculate_average_volume cfg now hist
  if avg_volume = 0 then false
  else decide (cfg.volume_threshold ≤ current_volume / avg_volume)

end Haha

/-- The append-and-prune step of `monitor_stocks` (src/alert.py:663-671,
src/haha.py:553-561, identical in both files): append `(current_time, volume)`
to the symbol's history, then keep only entries with
`ts >= current_time - timedelta(hours=4)`. -/
def append_and_prune (now : Int) (volume : Rat) (history : List Entry) : List Entry :=
  (history ++ [(now, volume)]).filter (fun e => decide (now - 4 * 3600 ≤ e.1))

/-- Trace of one run of `send_volume_alert`: the destinations attempted (in
order), those to which `bot.send_message` succeeded, the `(group_id, error)`
pairs logged by the `except` clause, the destinations on which a
`pin_chat_message` call was attempted, and the value returned to the caller
(the Python function returns `None`). -/
structure SendAlertRun where
  attempted : List Int
  delivered : List Int
  logged : List (Int × String)
  pinAttempted : List Int
  ret : Unit

/-- `send_volume_alert` (src/alert.py:633-642, src/haha.py:523-532, identical
in both files): `for group_id in self.monitored_groups: try: send_message
except: log`. `send` is the `bot.send_message` oracle (returning the sent
message's id on success). No pin call occurs in this function. -/
def send_volume_alert (send : Int → Except String Nat) : List Int → SendAlertRun
  | [] => ⟨[], [], [], [], ()⟩
  | g :: gs =>
    let rest := send_volume_alert send gs
    match send g with
    | .ok _ =>
      ⟨g :: rest.attempted, g :: rest.delivered, rest.logged, rest.pinAttempted, ()⟩
    | .error e =>
      ⟨g :: rest.attempted, rest.delivered, (g, e) :: rest.logged, rest.pinAttempted, ()⟩

/-- Trace of one run of `broadcast_message` (src/alert.py only). -/
structure BroadcastRun where
  delivered : List Int
  pinAttempted : List Int
  logged : List (Int × String)

/-- `broadcast_message` (src/alert.py:254-267): for each group, inside one
`try`, send the message; if `group_id < 0`, additionally pin the sent message;
the `except` clause logs any failure (of the send or of the pin) and moves on
to the next group. `pin` is the `bot.pin_chat_message` oracle. -/
def broadcast_message (send : Int → Except String Nat)
    (pin : Int → Nat → Except String Unit) : List Int → BroadcastRun
  | [] => ⟨[], [], []⟩
  | g :: gs =>
    let rest := broadcast_message send pin gs
    match send g with
    | .error e => ⟨rest.delivered, rest.pinAttempted, (g, e) :: rest.logged⟩
    | .ok mid =>
      if g < 0 then
        match pin g mid with
        | .ok _ => ⟨g :: rest.delivered, g :: rest.pinAttempted, rest.logged⟩
        | .error e => ⟨g :: rest.delivered, g :: rest.pinAttempted, (g, e) :: rest.logged⟩
      else ⟨g :: rest.delivered, rest.pinAttempted, rest.logged⟩

/-- Whether the `bot.send_message` oracle succeeds on a destination. -/
def deliveryOk (send : Int → Except String Nat) (g : Int) : Bool :=
  match send g with
  | .ok _ => true
  | .error _ => false

/-- A two-sample history whose windowed average at time 10000 is 10000. -/
def hist10k : Option (List Entry) := some [(10000, 10000), (10000, 10000)]

/-- A two-sample history whose windowed average at time 10000 is 100000. -/
def hist100k : Option (List Entry) := some [(10000, 100000), (10000, 100000)]

/-- A `bot.send_message` oracle that always succeeds. -/
def sendAllOk : Int → Except String Nat := fun _ => .ok 1

/-- A `bot.send_message` oracle that fails exactly on destination `-2`. -/
def sendFailNeg2 : Int → Except String Nat :=
  fun g => if g = -2 then .error "boom" else .ok 1

/-- C1 (counterexample): the claim quantifies over both monitor files, but the
detector of src/haha.py has no absolute-volume floor: with baseline average
10000 and current volume 50000 (below the 90000 floor, ratio 5.0) it alerts. -/
theorem haha_should_alert_ignores_floor :
    Haha.should_alert defaultConfig 10000 hist10k 50000 = true := by
  simp [Haha.should_alert, calculate_average_volume, recent_volumes, hist10k, defaultConfig]
  norm_num

/-- C1 (amended): in src/alert.py, `should_alert` returns false whenever the
current volume is below the 90000 floor, regardless of the history state, the
windowed average and the ratio threshold. -/
theorem alert_should_alert_floor (cfg : Config) (now : Int) (hist : Option (List Entry))
    (current_volume : Rat) (h : current_volume < 90000) :
    Alert.should_alert cfg now hist current_volume = false := by
  simp [Alert.should_alert, h]

/-- C1 (witness): the spec's example, on src/alert.py's detector: current
volume 50000 with baseline average 10000 does not alert. -/
theorem alert_should_alert_floor_witness :
    Alert.should_alert defaultConfig 10000 hist10k 50000 = false :=
  alert_should_alert_floor defaultConfig 10000 hist10k 50000 (by norm_num)

/-- C2 (counterexample): the two files' `should_alert` are not equivalent: at
current volume 50000 over a baseline average of 10000, src/alert.py returns
false (floor) while src/haha.py returns true (no floor, ratio 5.0). -/
theorem monitors_differ_below_floor :
    Alert.should_alert defaultConfig 10000 hist10k 50000 = false ∧
    Haha.should_alert defaultConfig 10000 hist10k 50000 = true := by
  constructor
  · simp [Alert.should_alert]
    norm_num
  · simp [Haha.should_alert, calculate_average_volume, recent_volumes, hist10k, defaultConfig]
    norm_num

/-- C2 (amended): the two `should_alert` implementations agree on every input
whose current volume is at or above the 90000 floor; they differ only below
the floor, which src/haha.py does not check. -/
theorem monitors_agree_at_or_above_floor (cfg : Config) (now : Int)
    (hist : Option (List Entry)) (current_volume : Rat)
    (h : (90000 : Rat) ≤ current_volume) :
    Alert.should_alert cfg now hist current_volume =
      Haha.should_alert cfg now hist current_volume := by
  have h' : ¬ current_volume < 90000 := not_lt.mpr h
  simp [Alert.should_alert, Haha.should_alert, h']

/-- C2 (witness): at current volume 100000 (above the floor) the two detectors
agree on the `hist10k` history. -/
theorem monitors_agree_at_or_above_floor_witness :
    Alert.should_alert defaultConfig 10000 hist10k 100000 =
      Haha.should_alert defaultConfig 10000 hist10k 100000 :=
  monitors_agree_at_or_above_floor defaultConfig 10000 hist10k 100000 (by norm_num)

/-- C3: when the windowed average is the no-data sentinel 0, neither file's
`should_alert` fires, for any current volume at or above the floor; in
particular a symbol with no recorded history (`none`) never alerts. -/
theorem no_baseline_no_alert (cfg : Config) (now : Int) (hist : Option (List Entry))
    (current_volume : Rat) (hfloor : (90000 : Rat) ≤ current_volume)
    (havg : calculate_average_volume cfg now hist = 0) :
    Alert.should_alert cfg now hist current_volume = false ∧
    Haha.should_alert cfg now hist current_volume = false ∧
    Alert.should_alert cfg now none current_volume = false ∧
    Haha.should_alert cfg now none current_volume = false := by
  have h' : ¬ current_volume < 90000 := not_lt.mpr hfloor
  refine ⟨?_, ?_, ?_, ?_⟩
  · simp [Alert.should_alert, h', havg]
  · simp [Haha.should_alert, havg]
  · simp [Alert.should_alert, h', calculate_average_volume]
  · simp [Haha.should_alert, calculate_average_volume]

/-- C3 (witness): a fresh symbol with no history and a huge first sample
(500000 units) does not alert in either file. -/
theorem no_baseline_no_alert_witness :
    Alert.should_alert defaultConfig 0 none 500000 = false ∧
    Haha.should_alert defaultConfig 0 none 500000 = false ∧
    Alert.should_alert defaultConfig 0 none 500000 = false ∧
    Haha.should_alert defaultConfig 0 none 500000 = false :=
  no_baseline_no_alert defaultConfig 0 none 500000 (by norm_num) rfl

/-- C4: once the floor and baseline checks pass, both detectors fire exactly
when `current_volume / avg` is at least the ratio threshold (inclusive
boundary). -/
theorem ratio_threshold_boundary (cfg : Config) (now : Int) (hist : Option (List Entry))
    (current_volume : Rat) (hfloor : (90000 : Rat) ≤ current_volume)
    (havg : calculate_average_volume cfg now hist ≠ 0) :
    (Alert.should_alert cfg now hist current_volume = true ↔
      cfg.volume_threshold ≤ current_volume / calculate_average_volume cfg now hist) ∧
    (Haha.should_alert cfg now hist current_volume = true ↔
      cfg.volume_threshold ≤ current_volume / calculate_average_volume cfg now hist) := by
  have h' : ¬ current_volume < 90000 := not_lt.mpr hfloor
  constructor <;> simp [Alert.should_alert, Haha.should_alert, h', havg]

/-- C4 (witness): over a baseline average of 100000 with threshold 2.0,
volume 200000 (ratio exactly 2.0) alerts and volume 150000 (ratio 1.5) does
not, in both files. -/
theorem ratio_threshold_boundary_witness :
    Alert.should_alert defaultConfig 10000 hist100k 200000 = true ∧
    Alert.should_alert defaultConfig 10000 hist100k 150000 = false ∧
    Haha.should_alert defaultConfig 10000 hist100k 200000 = true ∧
    Haha.should_alert defaultConfig 10000 hist100k 150000 = false := by
  have havg : calculate_average_volume defaultConfig 10000 hist100k = 100000 := by
    simp [calculate_average_volume, recent_volumes, hist100k, defaultConfig]
  have h200 := ratio_threshold_boundary defaultConfig 10000 hist100k 200000 (by norm_num)
    (by rw [havg]; norm_num)
  have h150 := ratio_threshold_boundary defaultConfig 10000 hist100k 150000 (by norm_num)
    (by rw [havg]; norm_num)
  rw [havg] at h200 h150
  refine ⟨h200.1.mpr (by norm_num [defaultConfig]), ?_,
    h200.2.mpr (by norm_num [defaultConfig]), ?_⟩
  · rw [← Bool.not_eq_true]
    intro hT
    have hle := h150.1.mp hT
    norm_num [defaultConfig] at hle
  · rw [← Bool.not_eq_true]
    intro hT
    have hle := h150.2.mp hT
    norm_num [defaultConfig] at hle

/-- C5 (counterexample): the sentinel 0 is not returned only in the no-data
cases: a symbol with two in-window samples of volume 0 has history, has 2
samples, has in-window samples — and the windowed average is still 0. -/
theorem windowed_average_zero_not_only_sentinel :
    calculate_average_volume defaultConfig 10000 (some [(10000, 0), (10000, 0)]) = 0 ∧
    (some [((10000 : Int), (0 : Rat)), (10000, 0)] : Option (List Entry)) ≠ none ∧
    ¬ ([((10000 : Int), (0 : Rat)), (10000, 0)].length < 2) ∧
    recent_volumes defaultConfig 10000 [(10000, 0), (10000, 0)] ≠ [] := by
  refine ⟨?_, ?_, ?_, ?_⟩ <;> simp [calculate_average_volume, recent_volumes, defaultConfig]

/-- C5 (amended): `calculate_average_volume` returns 0 when the symbol is
absent, when the history has fewer than 2 samples, or when no sample lies in
the window; otherwise it returns the arithmetic mean of the in-window volumes
(which can itself be 0 when every in-window volume is 0, so 0 is not returned
exclusively in the no-data cases). -/
theorem windowed_average_cases (cfg : Config) (now : Int) :
    calculate_average_volume cfg now none = 0 ∧
    (∀ h : List Entry, h.length < 2 → calculate_average_volume cfg now (some h) = 0) ∧
    (∀ h : List Entry, recent_volumes cfg now h = [] →
      calculate_average_volume cfg now (some h) = 0) ∧
    (∀ h : List Entry, 2 ≤ h.length → recent_volumes cfg now h ≠ [] →
      calculate_average_volume cfg now (some h) =
        ((recent_volumes cfg now h).foldl (· + ·) 0) / (recent_volumes cfg now h).length) := by
  refine ⟨rfl, ?_, ?_, ?_⟩
  · intro h hlen
    simp [calculate_average_volume, hlen]
  · intro h hrec
    simp [calculate_average_volume, hrec]
  · intro h hlen hrec
    have hlen' : ¬ h.length < 2 := not_lt.mpr hlen
    simp [calculate_average_volume, hlen', hrec]

/-- C5 (witness): two in-window samples of volumes 5 and 7 average to 6. -/
theorem windowed_average_cases_witness :
    calculate_average_volume defaultConfig 10000 (some [(10000, 5), (10000, 7)]) = 6 := by
  have hmean := (windowed_average_cases defaultConfig 10000).2.2.2 [(10000, 5), (10000, 7)]
    (by norm_num) (by simp [recent_volumes, defaultConfig])
  rw [hmean]
  simp [recent_volumes, defaultConfig]
  norm_num

/-- C6: after the append-and-prune step at time `now`, every entry remaining
in the symbol's history has a timestamp within the 4-hour retention horizon
(`now - 4 * 3600 ≤ ts`). -/
theorem append_prune_retention (now : Int) (vol : Rat) (history : List Entry) :
    ∀ e ∈ append_and_prune now vol history, now - 4 * 3600 ≤ e.1 := by
  intro e he
  simp only [append_and_prune, List.mem_filter] at he
  exact of_decide_eq_true he.2

/-- C6 (witness): the freshly appended entry itself lies within the horizon. -/
theorem append_prune_retention_witness :
    ((10000 : Int), (5 : Rat)) ∈ append_and_prune 10000 5 [] ∧
    (10000 : Int) - 4 * 3600 ≤ (((10000 : Int), (5 : Rat))).1 :=
  ⟨by simp [append_and_prune], append_prune_retention 10000 5 [] (10000, 5)
    (by simp [append_and_prune])⟩

/-- C7: the append-and-prune step keeps the retained old entries in their
original relative order: the result is exactly the time-filtered prior history
(a sublist of the prior history) with the new observation appended at the
end. -/
theorem append_prune_order (now : Int) (vol : Rat) (history : List Entry) :
    append_and_prune now vol history =
      (history.filter (fun e => decide (now - 4 * 3600 ≤ e.1))) ++ [(now, vol)] ∧
    List.Sublist (history.filter (fun e => decide (now - 4 * 3600 ≤ e.1))) history := by
  constructor
  · have hnow : now - 4 * 3600 ≤ now := by omega
    simp [append_and_prune, List.filter_append, hnow]
  · exact List.filter_sublist history

/-- C8: the session gate is the half-open interval test
`trading_start ≤ hour < trading_end` on the wall-clock hour; with the default
9–16 session it is closed at 8:00, open at 9:00 and 15:59, closed at 16:00. -/
theorem session_gate_half_open :
    (∀ (cfg : Config) (m : Nat), is_trading_hours cfg m = true ↔
      (cfg.trading_start ≤ m / 60 ∧ m / 60 < cfg.trading_end)) ∧
    is_trading_hours defaultConfig 480 = false ∧
    is_trading_hours defaultConfig 540 = true ∧
    is_trading_hours defaultConfig 959 = true ∧
    is_trading_hours defaultConfig 960 = false := by
  refine ⟨?_, ?_, ?_, ?_, ?_⟩
  · intro cfg m
    simp [is_trading_hours]
  · decide
  · decide
  · decide
  · decide

/-- C9 (counterexample): broadcasting to `[1, -2, 3]` where `-2` fails does
deliver to `1` and `3` and logs the failure of `-2` — but the caller receives
no report: the function's return value (the Python `None`) is identical to
the return value of a run in which every destination succeeded, so nothing
handed back to the caller marks which destinations succeeded or failed. -/
theorem send_alert_returns_no_report :
    (send_volume_alert sendFailNeg2 [1, -2, 3]).delivered = [1, 3] ∧
    (send_volume_alert sendFailNeg2 [1, -2, 3]).logged = [(-2, "boom")] ∧
    (send_volume_alert sendFailNeg2 [1, -2, 3]).ret =
      (send_volume_alert sendAllOk [1, -2, 3]).ret := by
  refine ⟨?_, ?_, rfl⟩ <;> rfl

/-- C9 (amended): `send_volume_alert` attempts every destination in order,
delivers exactly to those on which the send oracle succeeds (a failure on one
destination never prevents the remaining attempts), logs each failure with its
destination id and error, and returns normally (no exception escapes the
per-destination `except` clause) — but it returns `None` to its caller, not a
success/failure report. -/
theorem send_alert_independent_and_logged (send : Int → Except String Nat)
    (groups : List Int) :
    (send_volume_alert send groups).attempted = groups ∧
    (send_volume_alert send groups).delivered = groups.filter (deliveryOk send) ∧
    (send_volume_alert send groups).logged =
      groups.filterMap (fun g =>
        match send g with
        | .ok _ => none
        | .error e => some (g, e)) ∧
    (send_volume_alert send groups).ret = () := by
  induction groups with
  | nil => exact ⟨rfl, rfl, rfl, rfl⟩
  | cons g gs ih =>
    obtain ⟨ih1, ih2, ih3, _⟩ := ih
    cases hg : send g with
    | ok v =>
      simp [send_volume_alert, hg, ih1, ih2, ih3, deliveryOk,
        List.filter_cons, List.filterMap_cons]
    | error e =>
      simp [send_volume_alert, hg, ih1, ih2, ih3, deliveryOk,
        List.filter_cons, List.filterMap_cons]

/-- C10 (counterexample): the volume-alert dispatcher `send_volume_alert`
never attempts a pin, even after a successful delivery to the group-style
(negative-id) destination `-2`. -/
theorem send_alert_never_pins :
    (send_volume_alert sendAllOk [-2]).delivered = [-2] ∧
    (send_volume_alert sendAllOk [-2]).pinAttempted = [] :=
  ⟨rfl, rfl⟩

/-- C10 (amended): the generic `broadcast_message` helper of src/alert.py
delivers to exactly the destinations on which the send oracle succeeds — a
formula independent of the pin oracle, so a pin failure neither fails the
broadcast nor prevents delivery to the remaining destinations — and attempts a
pin exactly on the delivered destinations with a negative (group-style) id;
the volume-alert dispatcher `send_volume_alert` of both files, by contrast,
never attempts a pin. -/
theorem broadcast_pin_behavior (send : Int → Except String Nat)
    (pin : Int → Nat → Except String Unit) (groups : List Int) :
    (broadcast_message send pin groups).delivered = groups.filter (deliveryOk send) ∧
    (broadcast_message send pin groups).pinAttempted =
      groups.filter (fun g => deliveryOk send g && decide (g < 0)) ∧
    ∀ gs : List Int, (send_volume_alert send gs).pinAttempted = [] := by
  refine ⟨?_, ?_, ?_⟩
  · induction groups with
    | nil => rfl
    | cons g gs ih =>
      cases hg : send g with
      | ok mid =>
        by_cases hneg : g < 0
        · cases hp : pin g mid <;>
            simp [broadcast_message, hg, hneg, hp, ih, deliveryOk, List.filter_cons]
        · simp [broadcast_message, hg, hneg, ih, deliveryOk, List.filter_cons]
      | error e =>
        simp [broadcast_message, hg, ih, deliveryOk, List.filter_cons]
  · induction groups with
    | nil => rfl
    | cons g gs ih =>
      cases hg : send g with
      | ok mid =>
        by_cases hneg : g < 0
        · cases hp : pin g mid <;>
            simp [broadcast_message, hg, hneg, hp, ih, deliveryOk, List.filter_cons]
        · simp [broadcast_message, hg, hneg, ih, deliveryOk, List.filter_cons]
      | error e =>
        simp [broadcast_message, hg, ih, deliveryOk, List.filter_cons]
  · intro gs
    induction gs with
    | nil => rfl
    | cons g gs ih =>
      cases hg : send g <;> simp [send_volume_alert, hg, ih]
